import Mathlib

/-
Shallow embedding of `src/rich_logger/rich_logger.py` (the single source
module of the `rich-logger` repository).

The Python module defines a class `RichLogger` with
  * a class-level table `LOG_CATEGORIES : dict` mapping category names to
    descriptors with fields `label`, `color`, `level` (Python `logging`
    integer levels);
  * `__init__(name)`: fetches `logging.getLogger(name)`, sets its level to
    `logging.DEBUG`, and — only if the logger has no handlers — adds a
    `RichHandler` with level `logging.NOTSET` and sets `propagate = False`;
  * `log(message, label, level=DEBUG, color="white")`: builds the text
    `f"[{color}]{label:<8}[/] {message}"` and calls
    `self.logger.log(level, text, exc_info = label.upper() in {"DEBUG"})`;
  * `_attach_log_methods()`: for every `(method_name, properties)` in
    `LOG_CATEGORIES`, binds an instance method `method_name` that calls
    `self.log(message, props["label"], color=props["color"],
    level=props["level"])`, where `props` captures that entry's own
    descriptor via a default argument.

The embedding models levels as `Nat` (Python's numeric levels), the state
of a named logger as `LoggerState`, an emitted log record as `Record`, and
the dynamically attached facade methods as a lookup over the table.
-/

namespace RichLoggerModel

/-! Python `logging` module level constants. -/

def NOTSET : Nat := 0

def DEBUG : Nat := 10

def INFO : Nat := 20

def WARNING : Nat := 30

def ERROR : Nat := 40

/-- One value of the `LOG_CATEGORIES` dict: a display label, a Rich color
tag, and a Python logging level. -/
structure CategoryProps where
  label : String
  color : String
  level : Nat
deriving Repr, DecidableEq

/-- The class attribute `RichLogger.LOG_CATEGORIES`, transcribed entry by
entry in the source's insertion order (a Python dict iterates in insertion
order and its keys are unique). -/
def LOG_CATEGORIES : List (String × CategoryProps) := [
  ("read",    { label := "READ",     color := "magenta", level := INFO }),
  ("write",   { label := "WRITE",    color := "magenta", level := INFO }),
  ("meta",    { label := "METADATA", color := "magenta", level := INFO }),
  ("stage",   { label := "STAGE",    color := "blue",    level := INFO }),
  ("step",    { label := "STEP",     color := "blue",    level := INFO }),
  ("substep", { label := "SUB",      color := "blue",    level := INFO }),
  ("info",    { label := "STATUS",   color := "blue",    level := INFO }),
  ("config",  { label := "CONFIG",   color := "cyan",    level := INFO }),
  ("metric",  { label := "METRIC",   color := "cyan",    level := INFO }),
  ("result",  { label := "RESULT",   color := "cyan",    level := INFO }),
  ("warning", { label := "WARNING",  color := "yellow",  level := WARNING }),
  ("alert",   { label := "ALERT",    color := "red",     level := ERROR }),
  ("error",   { label := "ERROR",    color := "red",     level := ERROR }),
  ("check",   { label := "CHECK",    color := "green",   level := DEBUG }),
  ("debug",   { label := "DEBUG",    color := "green",   level := DEBUG })]

/-- Python's format spec `f"{s:<8}"`: left-align `s` in a field of minimum
width 8, padding on the right with spaces (no truncation). -/
def padLeftAlign (s : String) (w : Nat) : String :=
  s ++ String.mk (List.replicate (w - s.length) ' ')

/-- Python `str.upper()` restricted to its behavior on ASCII text (every
label in this module is ASCII): uppercase each character. -/
def pyUpper (s : String) : String :=
  String.mk (s.data.map Char.toUpper)

/-- A log record as handed to the underlying `logging` machinery: the
numeric level, the formatted message text, and the `exc_info` flag that
requests attaching the currently active exception's traceback. -/
structure Record where
  level : Nat
  text : String
  excInfo : Bool
deriving Repr, DecidableEq

/-- `RichLogger.log(message, label, level, color)`: builds
`rich_label = f"[{color}]{label:<8}[/]"`, then emits
`f"{rich_label} {message}"` at `level` with
`exc_info = label.upper() in {"DEBUG"}`.  (The Python defaults
`level = logging.DEBUG`, `color = "white"` are supplied positionally by
every caller in the module, so they are not modelled as defaults here.) -/
def log (message label : String) (level : Nat) (color : String) : Record :=
  let rich_label := "[" ++ color ++ "]" ++ padLeftAlign label 8 ++ "[/]"
  { level := level
    text := rich_label ++ " " ++ message
    excInfo := pyUpper label == "DEBUG" }

/-- The traceback text the `logging` machinery renders for a record:
when `exc_info` is set it attaches the active exception's traceback if one
exists (`sys.exc_info()`), and silently renders nothing when no exception
is active; when `exc_info` is not set nothing is attached. -/
def renderedTrace (r : Record) (activeExc : Option String) : Option String :=
  if r.excInfo then activeExc else none

/-- `RichLogger._attach_log_methods()`: for each table entry, the bound
instance method that forwards the message together with that entry's own
label, level and color to `RichLogger.log`.  The Python closure captures
each iteration's `properties` through the `props = properties` default
argument, so each method holds its own entry's descriptor. -/
def boundMethods (table : List (String × CategoryProps)) :
    List (String × (String → Record)) :=
  table.map (fun entry =>
    (entry.1, fun message => log message entry.2.label entry.2.level entry.2.color))

/-- Attribute access on a constructed facade: invoking the operation
`name(message)`.  `none` models the `AttributeError` Python raises when no
such method was attached (the spec's `UnknownCategory`); `some r` is the
record the attached method emits.  Since dict keys are unique, first-match
lookup agrees with the `setattr` loop. -/
def facadeCall (table : List (String × CategoryProps))
    (name message : String) : Option Record :=
  ((boundMethods table).lookup name).map (fun f => f message)

/-- A handler attached to a Python logger; the only field the module
interacts with is its level (`handler.setLevel(...)`). -/
structure Handler where
  level : Nat
deriving Repr, DecidableEq

/-- The state of the process-wide logger registered under a given name:
its own level, its attached handlers, and its `propagate` flag. -/
structure LoggerState where
  level : Nat
  handlers : List Handler
  propagate : Bool
deriving Repr, DecidableEq

/-- The state `logging.getLogger(name)` returns for a name never seen
before: level `NOTSET`, no handlers, propagation enabled. -/
def freshLogger : LoggerState :=
  { level := NOTSET, handlers := [], propagate := true }

/-- The `RichHandler` the constructor attaches, after
`handler.setLevel(logging.NOTSET)`. -/
def richHandler : Handler :=
  { level := NOTSET }

/-- `RichLogger.__init__(name)` acting on the state of
`logging.getLogger(name)`: always `setLevel(logging.DEBUG)`; then, only if
the logger has no handlers, append the `RichHandler` and set
`propagate = False`. -/
def construct (st : LoggerState) : LoggerState :=
  let st1 : LoggerState := { st with level := DEBUG }
  if st1.handlers.isEmpty then
    { st1 with handlers := st1.handlers ++ [richHandler], propagate := false }
  else
    st1

/-- How many times `logging` hands a record of level `level` to a handler
when `Logger.log` runs on a logger in state `st`: nothing if the logger's
level filters the record (`isEnabledFor`; `st.level` is never `NOTSET`
after `construct`, so the effective level is `st.level` itself), otherwise
one per attached handler whose own level passes it, plus the ancestors'
handlers (`parentCount`) when `propagate` is set. -/
def emittedRecords (st : LoggerState) (level : Nat) (parentCount : Nat) : Nat :=
  if st.level ≤ level then
    (st.handlers.filter (fun h => h.level ≤ level)).length +
      (if st.propagate then parentCount else 0)
  else 0

/-- The observable state of a constructed facade: the category table and
the underlying logger's state. -/
structure FacadeState where
  table : List (String × CategoryProps)
  logger : LoggerState
deriving Repr, DecidableEq

/-- One logical call `facade.name(message)` as a state transformer: it
returns the (unchanged) facade state, the record the attached method built
(or `none` on an unknown name), and how many times the sink renders it. -/
def categoryCallState (st : FacadeState) (name message : String) :
    FacadeState × Option Record × Nat :=
  match facadeCall st.table name message with
  | some r => (st, some r, emittedRecords st.logger r.level 0)
  | none => (st, none, 0)

/-! Helper lemmas about association-list lookup (dict access). -/

theorem lookup_mem {α β : Type} [BEq α] [LawfulBEq α]
    (l : List (α × β)) (a : α) (b : β) (h : l.lookup a = some b) :
    (a, b) ∈ l := by
  induction l with
  | nil => simp [List.lookup] at h
  | cons p t ih =>
    obtain ⟨k, v⟩ := p
    rw [List.lookup_cons] at h
    cases he : a == k with
    | true =>
      rw [he] at h
      have ha : a = k := by simpa using he
      have hb : v = b := by simpa using h
      subst ha
      subst hb
      exact List.mem_cons_self _ _
    | false =>
      rw [he] at h
      exact List.mem_cons_of_mem _ (ih h)

theorem lookup_of_mem_nodup {α β : Type} [BEq α] [LawfulBEq α]
    (l : List (α × β)) (a : α) (b : β)
    (hnd : (l.map Prod.fst).Nodup) (h : (a, b) ∈ l) :
    l.lookup a = some b := by
  induction l with
  | nil => simp at h
  | cons p t ih =>
    obtain ⟨k, v⟩ := p
    simp only [List.map_cons, List.nodup_cons] at hnd
    rw [List.mem_cons] at h
    rw [List.lookup_cons]
    rcases h with h | h
    · obtain ⟨rfl, rfl⟩ := Prod.mk.injEq .. ▸ h
      simp
    · have hne : (a == k) = false := by
        apply beq_eq_false_iff_ne.mpr
        intro hc
        subst hc
        exact hnd.1 (List.mem_map.mpr ⟨(a, b), h, rfl⟩)
      rw [hne]
      exact ih hnd.2 h

theorem lookup_eq_none_of_not_mem_keys {α β : Type} [BEq α] [LawfulBEq α]
    (l : List (α × β)) (a : α) (h : a ∉ l.map Prod.fst) :
    l.lookup a = none := by
  induction l with
  | nil => simp [List.lookup]
  | cons p t ih =>
    obtain ⟨k, v⟩ := p
    simp only [List.map_cons, List.mem_cons, not_or] at h
    rw [List.lookup_cons]
    have hne : (a == k) = false := beq_eq_false_iff_ne.mpr h.1
    rw [hne]
    exact ih h.2

theorem lookup_boundMethods (table : List (String × CategoryProps))
    (name : String) :
    (boundMethods table).lookup name =
      (table.lookup name).map
        (fun props => fun message => log message props.label props.level props.color) := by
  induction table with
  | nil => rfl
  | cons p t ih =>
    obtain ⟨k, v⟩ := p
    simp only [boundMethods, List.map_cons] at ih ⊢
    rw [List.lookup_cons, List.lookup_cons]
    cases he : name == k with
    | true => rfl
    | false => exact ih

theorem facadeCall_eq_lookup (table : List (String × CategoryProps))
    (name message : String) :
    facadeCall table name message =
      (table.lookup name).map
        (fun props => log message props.label props.level props.color) := by
  rw [facadeCall, lookup_boundMethods]
  cases table.lookup name <;> rfl

/-! Small facts shared by several of the theorems below. -/

theorem padLeftAlign_length (s : String) (w : Nat) :
    (padLeftAlign s w).length = s.length + (w - s.length) := by
  simp [padLeftAlign, String.length_append]

theorem all_categories_level_ge_debug :
    ∀ p ∈ LOG_CATEGORIES, DEBUG ≤ p.2.level := by decide

theorem construct_fresh :
    construct freshLogger =
      { level := DEBUG, handlers := [richHandler], propagate := false } := rfl

theorem construct_level (st : LoggerState) : (construct st).level = DEBUG := by
  cases hst : st.handlers <;> simp [construct, hst]

theorem construct_idem (st : LoggerState) :
    construct (construct st) = construct st := by
  cases hst : st.handlers <;> simp [construct, hst]

/-- C1: for every category name `c` in `LOG_CATEGORIES`, invoking the facade
operation `c` with a message emits exactly one record; its text is the
table's label for `c` left-aligned in a minimum-width-8 space-padded field
wrapped in the category's color markup, followed by the message verbatim;
the record carries exactly the severity the table assigns to `c`, and the
constructed logger's single handler renders it exactly once. -/
theorem facade_category_emits_labeled_record_at_table_severity
    (c : String) (props : CategoryProps) (msg : String)
    (h : LOG_CATEGORIES.lookup c = some props) :
    ∃ r : Record,
      facadeCall LOG_CATEGORIES c msg = some r ∧
      r.text = "[" ++ props.color ++ "]" ++
        (props.label ++ String.mk (List.replicate (8 - props.label.length) ' ')) ++
        "[/]" ++ " " ++ msg ∧
      8 ≤ (padLeftAlign props.label 8).length ∧
      r.level = props.level ∧
      emittedRecords (construct freshLogger) props.level 0 = 1 := by
  have hmem := lookup_mem _ _ _ h
  have hlev : DEBUG ≤ props.level := all_categories_level_ge_debug (c, props) hmem
  refine ⟨log msg props.label props.level props.color, ?_, rfl, ?_, rfl, ?_⟩
  · rw [facadeCall_eq_lookup, h]
    rfl
  · have := padLeftAlign_length props.label 8
    omega
  · rw [construct_fresh]
    simp [emittedRecords, richHandler, hlev, NOTSET]

/-- Witness for C1 at the category `read` and the message
`"Loading dataset"`. -/
theorem facade_category_emits_labeled_record_witness :
    ∃ r : Record,
      facadeCall LOG_CATEGORIES "read" "Loading dataset" = some r ∧
      r.text = "[" ++ "magenta" ++ "]" ++
        ("READ" ++ String.mk (List.replicate (8 - "READ".length) ' ')) ++
        "[/]" ++ " " ++ "Loading dataset" ∧
      8 ≤ (padLeftAlign "READ" 8).length ∧
      r.level = INFO ∧
      emittedRecords (construct freshLogger) INFO 0 = 1 :=
  facade_category_emits_labeled_record_at_table_severity "read"
    { label := "READ", color := "magenta", level := INFO } "Loading dataset" (by decide)

/-- C2: the category table holds exactly the fifteen documented categories,
in the documented order, each mapping to the documented
(label, color, severity) triple. -/
theorem log_categories_default_table :
    LOG_CATEGORIES.map Prod.fst =
      ["read", "write", "meta", "stage", "step", "substep", "info", "config",
       "metric", "result", "warning", "alert", "error", "check", "debug"] ∧
    LOG_CATEGORIES.lookup "read" = some { label := "READ", color := "magenta", level := INFO } ∧
    LOG_CATEGORIES.lookup "write" = some { label := "WRITE", color := "magenta", level := INFO } ∧
    LOG_CATEGORIES.lookup "meta" = some { label := "METADATA", color := "magenta", level := INFO } ∧
    LOG_CATEGORIES.lookup "stage" = some { label := "STAGE", color := "blue", level := INFO } ∧
    LOG_CATEGORIES.lookup "step" = some { label := "STEP", color := "blue", level := INFO } ∧
    LOG_CATEGORIES.lookup "substep" = some { label := "SUB", color := "blue", level := INFO } ∧
    LOG_CATEGORIES.lookup "info" = some { label := "STATUS", color := "blue", level := INFO } ∧
    LOG_CATEGORIES.lookup "config" = some { label := "CONFIG", color := "cyan", level := INFO } ∧
    LOG_CATEGORIES.lookup "metric" = some { label := "METRIC", color := "cyan", level := INFO } ∧
    LOG_CATEGORIES.lookup "result" = some { label := "RESULT", color := "cyan", level := INFO } ∧
    LOG_CATEGORIES.lookup "warning" = some { label := "WARNING", color := "yellow", level := WARNING } ∧
    LOG_CATEGORIES.lookup "alert" = some { label := "ALERT", color := "red", level := ERROR } ∧
    LOG_CATEGORIES.lookup "error" = some { label := "ERROR", color := "red", level := ERROR } ∧
    LOG_CATEGORIES.lookup "check" = some { label := "CHECK", color := "green", level := DEBUG } ∧
    LOG_CATEGORIES.lookup "debug" = some { label := "DEBUG", color := "green", level := DEBUG } := by
  decide

/-- C3 counterexample: the category `check` has severity `DEBUG` in the
table, yet invoking `check` while an exception is active attaches no
traceback — the attachment policy tests the resolved label (`CHECK`), not
the category's severity. -/
theorem check_severity_debug_but_no_traceback :
    LOG_CATEGORIES.lookup "check" =
      some { label := "CHECK", color := "green", level := DEBUG } ∧
    (facadeCall LOG_CATEGORIES "check" "probe").map
      (fun r => renderedTrace r (some "ZeroDivisionError traceback")) =
      some none := by
  decide

/-- C3 (amended): of the two debug-severity categories, only `debug`
(whose label is `DEBUG`) attaches the active exception's traceback to its
record; `check` attaches none even while an exception is active; and with
no active exception both emit their record with no traceback and without
error. -/
theorem debug_severity_traceback_policy (msg exc : String) :
    (facadeCall LOG_CATEGORIES "debug" msg).map (fun r => renderedTrace r (some exc)) =
      some (some exc) ∧
    (facadeCall LOG_CATEGORIES "debug" msg).map (fun r => renderedTrace r none) =
      some none ∧
    (facadeCall LOG_CATEGORIES "check" msg).map (fun r => renderedTrace r (some exc)) =
      some none ∧
    (facadeCall LOG_CATEGORIES "check" msg).map (fun r => renderedTrace r none) =
      some none :=
  ⟨rfl, rfl, rfl, rfl⟩

/-- C4: on every call to the emit operation, the traceback request flag is
set iff the label uppercases to `DEBUG`, and the rendered traceback is the
active exception exactly in that case — for every other label nothing is
attached, whatever the severity argument. -/
theorem traceback_attached_iff_label_upper_debug
    (message label : String) (level : Nat) (color : String) (exc : Option String) :
    (log message label level color).excInfo = (pyUpper label == "DEBUG") ∧
    renderedTrace (log message label level color) exc =
      (if pyUpper label = "DEBUG" then exc else none) := by
  refine ⟨rfl, ?_⟩
  simp only [renderedTrace, log]
  by_cases hc : pyUpper label = "DEBUG"
  · simp [hc]
  · simp [hc]

/-- C5: constructing a second facade over the same named logger changes
nothing and in particular attaches no additional handler (construction is
idempotent), so one logical call to any category operation is rendered
exactly once by the sink, never twice. -/
theorem second_construct_attaches_no_handler
    (st : LoggerState) (p : String × CategoryProps) (hp : p ∈ LOG_CATEGORIES) :
    construct (construct st) = construct st ∧
    (construct (construct st)).handlers.length = (construct st).handlers.length ∧
    emittedRecords (construct (construct freshLogger)) p.2.level 0 = 1 := by
  refine ⟨construct_idem st, by rw [construct_idem st], ?_⟩
  have hlev := all_categories_level_ge_debug p hp
  rw [construct_idem, construct_fresh]
  simp [emittedRecords, richHandler, hlev, NOTSET]

/-- Witness for C5 over a fresh named logger at category `read`. -/
theorem second_construct_attaches_no_handler_witness :
    construct (construct freshLogger) = construct freshLogger ∧
    (construct (construct freshLogger)).handlers.length =
      (construct freshLogger).handlers.length ∧
    emittedRecords (construct (construct freshLogger)) INFO 0 = 1 :=
  second_construct_attaches_no_handler freshLogger
    ("read", { label := "READ", color := "magenta", level := INFO }) (by decide)

/-- C6: for every entry of any category table with unique names (a Python
dict), including entries added beyond the defaults, construction attaches
an operation of that entry's name which forwards the message together with
that entry's own label, severity and color to the emit operation. -/
theorem attached_method_uses_own_table_entry
    (table : List (String × CategoryProps)) (name : String)
    (props : CategoryProps) (msg : String)
    (hnd : (table.map Prod.fst).Nodup) (hmem : (name, props) ∈ table) :
    facadeCall table name msg = some (log msg props.label props.level props.color) := by
  rw [facadeCall_eq_lookup, lookup_of_mem_nodup table name props hnd hmem]
  rfl

/-- Witness for C6: a table extended past the defaults with a new entry
`trace` yields a working `trace` operation using that entry's own
descriptor. -/
theorem attached_method_uses_own_table_entry_witness :
    facadeCall
      (LOG_CATEGORIES ++ [("trace", { label := "TRACE", color := "white", level := DEBUG })])
      "trace" "hello" =
      some (log "hello" "TRACE" DEBUG "white") :=
  attached_method_uses_own_table_entry
    (LOG_CATEGORIES ++ [("trace", { label := "TRACE", color := "white", level := DEBUG })])
    "trace" { label := "TRACE", color := "white", level := DEBUG } "hello"
    (by decide) (by decide)

/-- C7: construction sets the named logger's level to `DEBUG`, the lowest
level any category uses, so no category's severity falls below it, and the
attached handler's own level is `NOTSET`, which passes every message
through. -/
theorem construct_level_filters_no_category
    (st : LoggerState) (p : String × CategoryProps) (hp : p ∈ LOG_CATEGORIES) :
    (construct st).level = DEBUG ∧
    (construct st).level ≤ p.2.level ∧
    richHandler.level = NOTSET ∧
    richHandler.level ≤ p.2.level := by
  have hlev := all_categories_level_ge_debug p hp
  refine ⟨construct_level st, ?_, rfl, ?_⟩
  · rw [construct_level st]
    exact hlev
  · exact Nat.zero_le _

/-- Witness for C7 over a fresh named logger at category `read`. -/
theorem construct_level_filters_no_category_witness :
    (construct freshLogger).level = DEBUG ∧
    (construct freshLogger).level ≤ INFO ∧
    richHandler.level = NOTSET ∧
    richHandler.level ≤ INFO :=
  construct_level_filters_no_category freshLogger
    ("read", { label := "READ", color := "magenta", level := INFO }) (by decide)

/-- A logger registered under the facade's name before the facade is
constructed, with a handler already attached by other code (Python's
default `propagate` is `True`). -/
def preExistingLogger : LoggerState :=
  { level := NOTSET, handlers := [{ level := WARNING }], propagate := true }

/-- C8 counterexample: constructing the facade over a pre-existing logger
that already has a handler leaves `propagate` enabled — the constructor
disables propagation only inside its `if not self.logger.handlers`
branch. -/
theorem construct_preexisting_keeps_propagate :
    (construct preExistingLogger).propagate = true := by decide

/-- C8 (amended): construction disables upward propagation exactly when
the named logger had no handlers at construction time — in particular on
the facade's first construction, and it stays disabled when the facade is
reconstructed; a logger that already had handlers keeps its previous
propagation flag unchanged. -/
theorem construct_propagate_characterization (st : LoggerState) :
    (construct st).propagate =
      (if st.handlers.isEmpty then false else st.propagate) := by
  cases hst : st.handlers <;> simp [construct, hst]

/-- C9: invoking an operation whose name is absent from the category table
on a constructed facade finds no attached method — Python raises
`AttributeError`, the spec's `UnknownCategory` — and emits no record: the
sink renders nothing. -/
theorem unknown_category_fails_no_record
    (name : String) (msg : String) (st : LoggerState)
    (hn : name ∉ LOG_CATEGORIES.map Prod.fst) :
    facadeCall LOG_CATEGORIES name msg = none ∧
    (categoryCallState { table := LOG_CATEGORIES, logger := st } name msg).2 =
      (none, 0) := by
  have h : LOG_CATEGORIES.lookup name = none := lookup_eq_none_of_not_mem_keys _ _ hn
  have hf : facadeCall LOG_CATEGORIES name msg = none := by
    rw [facadeCall_eq_lookup, h]
    rfl
  exact ⟨hf, by simp [categoryCallState, hf]⟩

/-- Witness for C9 at the absent name `verbose`. -/
theorem unknown_category_fails_no_record_witness :
    facadeCall LOG_CATEGORIES "verbose" "probe" = none ∧
    (categoryCallState { table := LOG_CATEGORIES, logger := freshLogger }
      "verbose" "probe").2 = (none, 0) :=
  unknown_category_fails_no_record "verbose" "probe" freshLogger (by decide)

/-- C10: one logical call to a category operation leaves every component
of the facade state unchanged — the category table, the attached handlers,
the logger's level and its propagation flag, and hence the whole state. -/
theorem emission_preserves_facade_state
    (st : FacadeState) (name msg : String) :
    (categoryCallState st name msg).1.table = st.table ∧
    (categoryCallState st name msg).1.logger.handlers = st.logger.handlers ∧
    (categoryCallState st name msg).1.logger.level = st.logger.level ∧
    (categoryCallState st name msg).1.logger.propagate = st.logger.propagate ∧
    (categoryCallState st name msg).1 = st := by
  cases hf : facadeCall st.table name msg <;>
    simp [categoryCallState, hf]

end RichLoggerModel
